import Mathlib

/-!
Verification of the altoro-rpa reconciliation and retry subsystem.

This file shallowly embeds the decision logic of the repository in Lean 4
and proves the specified properties about it:

* `src/core/dataframe_helpers.py` — column normalization, aggregation,
  variance and match-status classification over tabular data;
* `src/orchestration/api_validate.py` — the transaction reconciliation flow
  with its degenerate-input fallbacks;
* `src/api/retry_handler.py` — the HTTP retry engine with exponential
  backoff and per-status error classification;
* `src/core/session_handler.py` — the browser-session retry engine;
* `src/api/client.py` — token lifecycle and response unwrapping.

Tabular data is modelled as a list of column labels plus positional rows of
cells; a cell is null (pandas NaN/None), a rational number, or a string.
Machine floats of the source are modelled as rationals; time instants as
rationals (epoch seconds).  Python exceptions of the retry engines are
modelled as explicit result constructors; randomness (jitter) is modelled
by passing the sampled value as an argument.
-/

namespace AltoroRPA

/-! ### String helpers (Python `str.lower` and the `in` substring test) -/

/-- Lowercase a string character-wise (Python `str.lower()` on ASCII data). -/
def lowerStr (s : String) : String :=
  String.mk (s.toList.map Char.toLower)

/-- `charsLead pat l` : the character list `pat` is an initial run of `l`. -/
def charsLead : List Char → List Char → Bool
  | [], _ => true
  | _ :: _, [] => false
  | p :: ps, c :: cs => p == c && charsLead ps cs

/-- `charsHave pat l` : `pat` occurs contiguously inside `l`. -/
def charsHave (pat : List Char) : List Char → Bool
  | [] => charsLead pat []
  | c :: rest => charsLead pat (c :: rest) || charsHave pat rest

/-- Python's `keyword in s` substring test. -/
def strHas (s keyword : String) : Bool :=
  charsHave keyword.toList s.toList

/-! ### Cells and DataFrames -/

/-- A cell of a DataFrame: pandas NaN/None, a number, or a string. -/
inductive Val where
  | null : Val
  | num (q : ℚ) : Val
  | str (s : String) : Val
deriving DecidableEq

/-- `pd.notna` : true on every cell except null. -/
def notna : Val → Bool
  | .null => false
  | _ => true

/-- Cell subtraction.  Numeric cells subtract; a null operand propagates
null (pandas NaN-propagation).  Subtracting other combinations raises a
`TypeError` in the source; no call site reaches that case and it is
modelled as null. -/
def valSub : Val → Val → Val
  | .num a, .num b => .num (a - b)
  | _, _ => .null

/-- A DataFrame: column labels plus positional rows.
`rows[i][j]` is the cell of row `i` in column `cols[j]`. -/
structure Df where
  cols : List String
  rows : List (List Val)
deriving DecidableEq

/-- Well-formedness: each row has exactly one cell per column. -/
def Df.WF (df : Df) : Prop :=
  ∀ r ∈ df.rows, r.length = df.cols.length

instance (df : Df) : Decidable df.WF := by
  unfold Df.WF; infer_instance

/-- Index of the first column with a given label (pandas label lookup). -/
def colIdx (cols : List String) (c : String) : Option ℕ :=
  match cols with
  | [] => none
  | c0 :: rest => if c0 = c then some 0 else (colIdx rest c).map (· + 1)

/-- The cell of `row` in column `c` (`Series.get`): null when the label is
absent, as `row.get(col)` returns None in the source. -/
def rowCell (cols : List String) (row : List Val) (c : String) : Val :=
  match colIdx cols c with
  | some j => row.getD j .null
  | none => .null

/-- Replace the cells of every column labelled `name` in one row by `v`
(column assignment on an existing label). -/
def setRow (cols : List String) (name : String) (v : Val) (row : List Val) : List Val :=
  List.zipWith (fun c x => if c = name then v else x) cols row

/-- `df[name] = vals` : pandas column assignment.  Overwrites the column in
place when the label exists, otherwise appends a new column on the right. -/
def Df.setCol (df : Df) (name : String) (vals : List Val) : Df :=
  if name ∈ df.cols then
    { cols := df.cols, rows := List.zipWith (fun r v => setRow df.cols name v r) df.rows vals }
  else
    { cols := df.cols ++ [name], rows := List.zipWith (fun r v => r ++ [v]) df.rows vals }

/-! ### `src/core/dataframe_helpers.py` -/

/-- `VARIANCE_TOLERANCE` from `src/core/constants.py`. -/
def VARIANCE_TOLERANCE : ℚ := 1 / 100

/-- The normalized name of one column: lowercase it and rename by the first
rule all of whose keywords occur in the lowercased name (first match wins);
a column matching no rule keeps its name.  This is the per-column effect of
`normalize_column_names`. -/
def normalizeName (rules : List (List String × String)) (col : String) : String :=
  match rules.find? (fun rule => rule.1.all (fun k => strHas (lowerStr col) k)) with
  | some rule => rule.2
  | none => col

/-- `normalize_column_names(df, mapping_rules)` : rename columns by keyword
rules; row data is untouched. -/
def normalize_column_names (df : Df) (rules : List (List String × String)) : Df :=
  { cols := df.cols.map (normalizeName rules), rows := df.rows }

/-- `df.rename(columns=mapping)` with an exact label mapping. -/
def renameCols (mapping : List (String × String)) (df : Df) : Df :=
  { cols := df.cols.map (fun c =>
      match mapping.find? (fun p => p.1 = c) with
      | some p => p.2
      | none => c),
    rows := df.rows }

/-- `calculate_net_amount(df, credit_col, debit_col, result_col)` :
adds `result_col = credit - debit` (null propagates). -/
def calculate_net_amount (df : Df) (credit_col debit_col result_col : String) : Df :=
  df.setCol result_col
    (df.rows.map (fun r => valSub (rowCell df.cols r credit_col) (rowCell df.cols r debit_col)))

/-- The per-row lambda of `calculate_variance`: `col1 - col2` when both
cells are non-null, else None. -/
def varianceCell (a b : Val) : Val :=
  if notna a && notna b then valSub a b else .null

/-- `calculate_variance(df, col1, col2, result_col)` : adds the row-wise
variance column (the unused `tolerance` parameter of the source is
omitted). -/
def calculate_variance (df : Df) (col1 col2 result_col : String) : Df :=
  df.setCol result_col
    (df.rows.map (fun r => varianceCell (rowCell df.cols r col1) (rowCell df.cols r col2)))

/-- The inner `determine_status` of `add_match_status`.  `abs` of a string
cell raises in the source; every call site classifies a variance column
whose cells are null or numeric, and the string case is modelled by the
variance label. -/
def determine_status (tolerance : ℚ) (match_label variance_label missing_label : String) :
    Val → String
  | .null => missing_label
  | .num v => if |v| < tolerance then match_label else variance_label
  | .str _ => variance_label

/-- `add_match_status(df, variance_col, status_col, tolerance, ...)` :
adds a status column classifying each row's variance cell. -/
def add_match_status (df : Df) (variance_col status_col : String) (tolerance : ℚ)
    (match_label variance_label missing_label : String) : Df :=
  df.setCol status_col
    (df.rows.map (fun r =>
      .str (determine_status tolerance match_label variance_label missing_label
        (rowCell df.cols r variance_col))))

/-! ### Grouping and merging (the pandas primitives used by reconciliation) -/

/-- Total order on cells used to model pandas' sorted group keys:
null < numbers < strings, numerically resp. lexicographically inside a
class.  All reconciliation group keys are strings after `astype(str)`. -/
def valLe (a b : Val) : Bool :=
  match a, b with
  | .null, _ => true
  | .num _, .null => false
  | .num x, .num y => decide (x ≤ y)
  | .num _, .str _ => true
  | .str x, .str y => decide (x ≤ y)
  | .str _, _ => false

/-- Insertion sort by `valLe` (models `groupby(..., sort=True)`). -/
def insertSorted (v : Val) : List Val → List Val
  | [] => [v]
  | x :: xs => if valLe v x then v :: x :: xs else x :: insertSorted v xs

/-- Sort a list of cells by `valLe`. -/
def sortVals (l : List Val) : List Val :=
  l.foldr insertSorted []

/-- The distinct cells of a list, first occurrences first. -/
def distinctVals (l : List Val) : List Val :=
  l.foldl (fun acc v => if v ∈ acc then acc else acc ++ [v]) []

/-- Sum of the numeric cells of a list, skipping null (pandas
`sum(skipna=True)`; an all-null or empty group sums to 0). -/
def sumCells (cells : List Val) : Val :=
  .num (cells.foldl (fun acc v => match v with | .num q => acc + q | _ => acc) 0)

/-- Count of non-null cells (pandas `count`). -/
def countCells (cells : List Val) : Val :=
  .num ((cells.filter (fun v => notna v)).length)

/-- `group_and_sum_by_account(df, group_col, sum_cols, count_col)` :
group by `group_col` (null keys dropped, keys sorted), sum each column of
`sum_cols`, and count non-null `count_col` cells into `transaction_count`. -/
def group_and_sum_by_account (df : Df) (group_col : String) (sum_cols : List String)
    (count_col : String) : Df :=
  let keys := sortVals (distinctVals
    ((df.rows.map (fun r => rowCell df.cols r group_col)).filter (fun v => notna v)))
  { cols := group_col :: (sum_cols ++ ["transaction_count"]),
    rows := keys.map (fun k =>
      let grp := df.rows.filter (fun r => rowCell df.cols r group_col = k)
      k :: (sum_cols.map (fun c => sumCells (grp.map (fun r => rowCell df.cols r c)))
        ++ [countCells (grp.map (fun r => rowCell df.cols r count_col))])) }

/-- `pd.merge(l, r, on=key, how="outer")` for frames whose key column is
unique (the grouped summaries): left rows matched against the right by key,
unmatched sides padded with null, right-only key rows appended. -/
def mergeOuter (l r : Df) (key : String) : Df :=
  let rcols := r.cols.filter (fun c => c ≠ key)
  { cols := l.cols ++ rcols,
    rows :=
      (l.rows.map (fun lr =>
        match r.rows.find? (fun rr => rowCell r.cols rr key = rowCell l.cols lr key) with
        | some rr => lr ++ rcols.map (fun c => rowCell r.cols rr c)
        | none => lr ++ rcols.map (fun _ => Val.null)))
      ++ ((r.rows.filter (fun rr =>
            !(l.rows.any (fun lr => rowCell l.cols lr key = rowCell r.cols rr key)))).map
          (fun rr =>
            l.cols.map (fun c => if c = key then rowCell r.cols rr key else Val.null)
              ++ rcols.map (fun c => rowCell r.cols rr c))) }

/-! ### `src/orchestration/api_validate.py` — transaction reconciliation -/

/-- The exact display-name mapping applied to web columns before the fuzzy
pass (`display_to_programmatic` in `_reconcile_transactions`). -/
def display_to_programmatic : List (String × String) :=
  [("Transaction ID", "transaction_id"),
   ("Transaction Time", "transaction_time"),
   ("Account ID", "account_id"),
   ("Action", "action"),
   ("Debit", "debit"),
   ("Credit", "credit")]

/-- The fuzzy fallback rules of `_reconcile_transactions`. -/
def fuzzy_rules : List (List String × String) :=
  [(["account", "id"], "account_id"),
   (["account", "number"], "account_id"),
   (["transaction", "id"], "transaction_id")]

/-- `astype(str)` on one cell: strings pass through, numbers are rendered,
NaN becomes the string "nan" (pandas behaviour). -/
def valAsStr : Val → Val
  | .str s => .str s
  | .num q => .str (toString q)
  | .null => .str "nan"

/-- Apply a cell function to an existing column in place. -/
def astypeCol (df : Df) (c : String) (f : Val → Val) : Df :=
  df.setCol c (df.rows.map (fun r => f (rowCell df.cols r c)))

/-- `df.assign(data_source=tag)` : set the `data_source` column to a
constant (overwriting it if present). -/
def assignDataSource (df : Df) (tag : String) : Df :=
  df.setCol "data_source" (df.rows.map (fun _ => Val.str tag))

/-- `_summarize_api_transactions`: empty input gives an empty frame;
missing required columns give a one-row diagnostic; otherwise group by
account, rename the totals, add the net amount and a `data_source` tag.
The source's try/except around the grouping cannot fire after the column
check and is not modelled. -/
def summarize_api_transactions (df : Df) : Df :=
  if df.rows.isEmpty then { cols := [], rows := [] }
  else
    let missing := ["account_id", "debit", "credit", "transaction_id"].filter
      (fun c => !(decide (c ∈ df.cols)))
    if !missing.isEmpty then
      { cols := ["Status", "Missing_Columns", "Available_Columns"],
        rows := [[.str "Cannot summarize transactions",
                  .str (String.intercalate ", " missing),
                  .str (String.intercalate ", " df.cols)]] }
    else
      let summary := group_and_sum_by_account df "account_id" ["debit", "credit"]
        "transaction_id"
      let summary := renameCols [("debit", "total_debits"), ("credit", "total_credits")]
        summary
      let summary := calculate_net_amount summary "total_credits" "total_debits" "net_amount"
      summary.setCol "data_source" (summary.rows.map (fun _ => Val.str "Transaction Summary"))

/-- The web side of `_reconcile_transactions` before the empty checks:
exact display-name rename, fuzzy normalization, `astype(str)` on the join
key when present. -/
def webSide (web_df : Df) : Df :=
  let w := normalize_column_names (renameCols display_to_programmatic web_df) fuzzy_rules
  if "account_id" ∈ w.cols then astypeCol w "account_id" valAsStr else w

/-- The API side of `_reconcile_transactions` before the empty checks:
`astype(str)` on the join key when present. -/
def apiSide (api_df : Df) : Df :=
  if "account_id" ∈ api_df.cols then astypeCol api_df "account_id" valAsStr else api_df

/-- The one-row diagnostic returned when both inputs are empty. -/
def noDataDiagnostic : Df :=
  { cols := ["Status"], rows := [[.str "No transaction data available from API or Web"]] }

/-- The one-row diagnostic for an API side without the join column. -/
def apiMalformedDiagnostic : Df :=
  { cols := ["Status", "Details"],
    rows := [[.str "Error: API data malformed", .str "Missing account_id column"]] }

/-- The one-row diagnostic for a web side without the join column. -/
def webMalformedDiagnostic : Df :=
  { cols := ["Status", "Details"],
    rows := [[.str "Error: Web data malformed", .str "Missing account_id column"]] }

/-- `_reconcile_transactions(api_df, web_df)`.  The try/except branches of
the source around `_summarize_api_transactions` cannot fire (the callee
catches its own failures) and are not modelled. -/
def reconcile_transactions (api_df web_df : Df) : Df :=
  let api1 := apiSide api_df
  let web1 := webSide web_df
  if api1.rows.isEmpty then
    if !web1.rows.isEmpty then
      assignDataSource (summarize_api_transactions web1) "Web Only (API Empty)"
    else noDataDiagnostic
  else if web1.rows.isEmpty then
    assignDataSource (summarize_api_transactions api1) "API Only (Web Empty)"
  else if !(decide ("account_id" ∈ api1.cols)) then apiMalformedDiagnostic
  else if !(decide ("account_id" ∈ web1.cols)) then webMalformedDiagnostic
  else
    let api_summary := renameCols
      [("debit", "api_total_debits"), ("credit", "api_total_credits"),
       ("transaction_count", "api_txn_count")]
      (group_and_sum_by_account api1 "account_id" ["debit", "credit"] "transaction_id")
    let web_summary := renameCols
      [("debit", "web_total_debits"), ("credit", "web_total_credits"),
       ("transaction_count", "web_txn_count")]
      (group_and_sum_by_account web1 "account_id" ["debit", "credit"] "transaction_id")
    let merged := mergeOuter api_summary web_summary "account_id"
    let merged := calculate_variance merged "api_total_debits" "web_total_debits"
      "debit_variance"
    let merged := calculate_variance merged "api_total_credits" "web_total_credits"
      "credit_variance"
    let merged := calculate_variance merged "api_txn_count" "web_txn_count"
      "txn_count_variance"
    let merged := merged.setCol "api_net" (merged.rows.map (fun r =>
      valSub (rowCell merged.cols r "api_total_credits")
        (rowCell merged.cols r "api_total_debits")))
    let merged := merged.setCol "web_net" (merged.rows.map (fun r =>
      valSub (rowCell merged.cols r "web_total_credits")
        (rowCell merged.cols r "web_total_debits")))
    let merged := calculate_variance merged "api_net" "web_net" "net_variance"
    add_match_status merged "net_variance" "match_status" VARIANCE_TOLERANCE
      "Match" "Variance" "Data Missing"

/-! ### `src/api/retry_handler.py` — the HTTP retry engine

One invocation of the wrapped operation is an `HttpOutcome`; a whole run is
driven by the outcome of each invocation index (0-based).  Sleeping and the
random jitter are effects: the run records how many sleeps occurred, and
`calculate_backoff` takes the sampled jitter as an argument. -/

/-- The outcome of one invocation of the wrapped operation, as classified
by the source's except clauses. -/
inductive HttpOutcome where
  | success
  | statusErr (code : ℕ)
  | connectErr
  | timeoutErr
  | requestErr
  | otherErr
deriving DecidableEq

/-- The terminal result of a retried call.  Error constructors carry the
HTTP status or the `attempts` field, and `causeIdx`, the 0-based index of
the invocation whose error is the terminal error's `__cause__`
(`raise ... from e`). -/
inductive RetryOutcome where
  | ok
  | authError (status : ℕ) (causeIdx : ℕ)
  | apiError (status : ℕ) (causeIdx : ℕ)
  | maxRetriesExceeded (attempts : ℕ) (causeIdx : ℕ)
  | connError (attempts : ℕ) (causeIdx : ℕ)
  | unexpected (causeIdx : ℕ)
deriving DecidableEq

/-- Observable statistics of one retried call: its terminal result, how
many times the wrapped operation was invoked, and how many sleeps
occurred. -/
structure RunStats where
  result : RetryOutcome
  calls : ℕ
  sleeps : ℕ
deriving DecidableEq

/-- The retry loop of `with_api_retry`.  `fuel = max_retries + 1 - attempt`
counts the remaining iterations allowed by `while attempt <= max_retries`;
fuel 0 is the source's unreachable post-loop fallback raise.  The attempt
counter increments before classification, exactly as in the source. -/
def apiRetryAux (maxRetries : ℕ) (out : ℕ → HttpOutcome) :
    (fuel attempt calls sleeps : ℕ) → RunStats
  | 0, attempt, calls, sleeps =>
    ⟨.maxRetriesExceeded attempt (attempt - 1), calls, sleeps⟩
  | fuel + 1, attempt, calls, sleeps =>
    match out attempt with
    | .success => ⟨.ok, calls + 1, sleeps⟩
    | .statusErr code =>
      if code = 401 then ⟨.authError 401 attempt, calls + 1, sleeps⟩
      else if code = 400 then ⟨.apiError 400 attempt, calls + 1, sleeps⟩
      else if code = 501 then ⟨.apiError 501 attempt, calls + 1, sleeps⟩
      else if code = 500 then
        if attempt + 1 > maxRetries then
          ⟨.maxRetriesExceeded (attempt + 1) attempt, calls + 1, sleeps⟩
        else apiRetryAux maxRetries out fuel (attempt + 1) (calls + 1) (sleeps + 1)
      else ⟨.apiError code attempt, calls + 1, sleeps⟩
    | .connectErr =>
      if attempt + 1 > maxRetries then
        ⟨.maxRetriesExceeded (attempt + 1) attempt, calls + 1, sleeps⟩
      else apiRetryAux maxRetries out fuel (attempt + 1) (calls + 1) (sleeps + 1)
    | .timeoutErr =>
      if attempt + 1 > maxRetries then
        ⟨.maxRetriesExceeded (attempt + 1) attempt, calls + 1, sleeps⟩
      else apiRetryAux maxRetries out fuel (attempt + 1) (calls + 1) (sleeps + 1)
    | .requestErr =>
      if attempt + 1 > maxRetries then
        ⟨.connError (attempt + 1) attempt, calls + 1, sleeps⟩
      else apiRetryAux maxRetries out fuel (attempt + 1) (calls + 1) (sleeps + 1)
    | .otherErr => ⟨.unexpected attempt, calls + 1, sleeps⟩

/-- One call wrapped by `with_api_retry(max_retries, ...)`, driven by the
invocation outcomes `out`. -/
def apiRetryRun (maxRetries : ℕ) (out : ℕ → HttpOutcome) : RunStats :=
  apiRetryAux maxRetries out (maxRetries + 1) 0 0 0

/-- `_calculate_backoff(attempt, backoff_factor, max_backoff, jitter)`.
The sampled value of `random.uniform(0, backoff * 0.1)` is passed in as
`sample`; theorems constrain it to the sampled range. -/
def calculate_backoff (attempt : ℕ) (backoff_factor max_backoff : ℚ) (jitter : Bool)
    (sample : ℚ) : ℚ :=
  let backoff := min (backoff_factor ^ (attempt - 1)) max_backoff
  if jitter then backoff + sample else backoff

/-- The un-jittered exponential backoff `min(factor^(attempt-1), max)`. -/
def backoffBase (attempt : ℕ) (backoff_factor max_backoff : ℚ) : ℚ :=
  min (backoff_factor ^ (attempt - 1)) max_backoff

/-! ### `src/core/session_handler.py` — the browser-session retry engine -/

/-- `SESSION_ERROR_KEYWORDS` from `src/core/constants.py`. -/
def SESSION_ERROR_KEYWORDS : List String :=
  ["target closed", "session", "timeout", "navigation", "detached", "not found"]

/-- The source's classification: some keyword occurs in the lowercased
error message. -/
def isSessionError (msg : String) : Bool :=
  SESSION_ERROR_KEYWORDS.any (fun phrase => strHas (lowerStr msg) phrase)

/-- The outcome of one invocation of a session-wrapped operation. -/
inductive SessionOutcome where
  | success
  | err (msg : String)
deriving DecidableEq

/-- The collaborators consulted during session recovery, per attempt
number: whether the object has the `login_page` and `credentials`
attributes, what `is_logged_out()` returns (none = it raised), and whether
the goto/login/assert re-authentication sequence succeeds. -/
structure SessionEnv where
  hasLoginPage : Bool
  hasCredentials : Bool
  loggedOut : ℕ → Option Bool
  reauthOk : ℕ → Bool

/-- Terminal result of a session-wrapped call:  the operation's value, the
original error re-raised (carrying the index of the raising invocation),
`SessionExpiredError`, or the unreachable-fallback raise when the loop
body never ran (`max_retries = 0`). -/
inductive SessionResult where
  | ok
  | reraise (causeIdx : ℕ)
  | sessionExpired (causeIdx : ℕ)
  | unknownError
deriving DecidableEq

/-- Observable statistics of one session-wrapped call. -/
structure SessionStats where
  result : SessionResult
  calls : ℕ
deriving DecidableEq

/-- The loop of `with_session_retry`: `for attempt in range(1, max_retries + 1)`.
`fuel = max_retries + 1 - attempt` counts the remaining iterations; fuel 0
is the post-loop `raise last_exception` (or the unknown-error raise when no
iteration ran).  A `SessionExpiredError` raised for missing credentials is
caught by the enclosing `except` of the source, which is why that case
joins the failed-re-authentication path. -/
def sessionRetryAux (maxRetries : ℕ) (env : SessionEnv) (out : ℕ → SessionOutcome) :
    (fuel attempt calls : ℕ) → (lastIdx : Option ℕ) → SessionStats
  | 0, _, calls, lastIdx =>
    match lastIdx with
    | some i => ⟨.reraise i, calls⟩
    | none => ⟨.unknownError, calls⟩
  | fuel + 1, attempt, calls, _ =>
    match out attempt with
    | .success => ⟨.ok, calls + 1⟩
    | .err msg =>
      if !isSessionError msg then ⟨.reraise attempt, calls + 1⟩
      else
        let retryAnyway : SessionStats :=
          if attempt < maxRetries then
            sessionRetryAux maxRetries env out fuel (attempt + 1) (calls + 1) (some attempt)
          else ⟨.reraise attempt, calls + 1⟩
        if env.hasLoginPage then
          match env.loggedOut attempt with
          | none =>
            -- is_logged_out() raised: caught by the except clause
            if attempt = maxRetries then ⟨.sessionExpired attempt, calls + 1⟩
            else retryAnyway
          | some true =>
            if env.hasCredentials then
              if env.reauthOk attempt then
                sessionRetryAux maxRetries env out fuel (attempt + 1) (calls + 1) (some attempt)
              else
                -- goto/login/assert raised: caught by the except clause
                if attempt = maxRetries then ⟨.sessionExpired attempt, calls + 1⟩
                else retryAnyway
            else
              -- the no-credentials SessionExpiredError is raised inside the
              -- try block and caught by its own except clause
              if attempt = maxRetries then ⟨.sessionExpired attempt, calls + 1⟩
              else retryAnyway
          | some false => retryAnyway
        else retryAnyway

/-- One call wrapped by `with_session_retry(max_retries)`. -/
def sessionRetryRun (maxRetries : ℕ) (env : SessionEnv) (out : ℕ → SessionOutcome) :
    SessionStats :=
  sessionRetryAux maxRetries env out maxRetries 1 0 none

/-! ### `src/api/client.py` — token lifecycle and response unwrapping

The HTTP transport is external: each operation is modelled on the JSON
body of a successful response, with `now` the current epoch-seconds clock
and `authHeader` the `Authorization` field a login would return. -/

/-- A JSON value. -/
inductive Json where
  | null
  | bool (b : Bool)
  | num (q : ℚ)
  | str (s : String)
  | arr (elems : List Json)
  | obj (fields : List (String × Json))

/-- Python truthiness of a JSON value (`None`, `False`, `0`, `""`, `[]`
and an empty dict are falsy). -/
def jsonTruthy : Json → Bool
  | .null => false
  | .bool b => b
  | .num q => !(decide (q = 0))
  | .str s => !(decide (s = ""))
  | .arr es => !es.isEmpty
  | .obj fs => !fs.isEmpty

/-- Python `dict.get(k)`: the value at `k`, or None when absent. -/
def dictGet (fields : List (String × Json)) (k : String) : Json :=
  match fields.find? (fun p => p.1 = k) with
  | some p => p.2
  | none => .null

/-- Python `dict.get(k, d)`: the value at `k`, or the default `d`. -/
def dictGetD (fields : List (String × Json)) (k : String) (d : Json) : Json :=
  match fields.find? (fun p => p.1 = k) with
  | some p => p.2
  | none => d

/-- Python `a or b`. -/
def pyOr (a b : Json) : Json :=
  if jsonTruthy a then a else b

/-- The response unwrapping of `AltoroAPI.transactions`: a dict is probed
for `transactions`, then `lastTenTransactions`, then `Transactions`, with
`[]` as final fallback (the `or` chain skips falsy values); a bare list
passes through; anything else yields `[]`. -/
def extract_transactions (resp : Json) : Json :=
  match resp with
  | .obj fs =>
    pyOr (dictGet fs "transactions")
      (pyOr (dictGet fs "lastTenTransactions")
        (pyOr (dictGet fs "Transactions") (.arr [])))
  | .arr es => .arr es
  | _ => .arr []

/-- `TOKEN_REFRESH_BUFFER` from `src/api/client.py` (seconds). -/
def TOKEN_REFRESH_BUFFER : ℚ := 300

/-- The client's `Token(value, exp)` model. -/
structure Token where
  value : String
  exp : ℚ
deriving DecidableEq

/-- The token-relevant state of an `AltoroAPI` client (`self._tok`). -/
structure ClientState where
  tok : Option Token
deriving DecidableEq

/-- `AltoroAPI._is_token_expired`: true when there is no token or the time
until expiry is below the refresh buffer. -/
def is_token_expired (st : ClientState) (now : ℚ) : Bool :=
  match st.tok with
  | none => true
  | some t => decide (t.exp - now < TOKEN_REFRESH_BUFFER)

/-- The `"Bearer "`-stripping of `AltoroAPI.authenticate` (the source's
`replace` runs only under the `startswith` guard, so it strips the
prefix). -/
def stripBearer (authHeader : String) : String :=
  if authHeader.startsWith "Bearer " then authHeader.drop 7 else authHeader

/-- The state effect of a successful `AltoroAPI.authenticate`: store a
fresh token expiring 3600 seconds from now. -/
def authenticate (now : ℚ) (authHeader : String) : ClientState :=
  { tok := some { value := stripBearer authHeader, exp := now + 3600 } }

/-- `AltoroAPI._ensure_valid_token`: re-authenticate exactly when the token
is expired or missing; returns the new state and whether a login ran. -/
def ensure_valid_token (st : ClientState) (now : ℚ) (authHeader : String) :
    ClientState × Bool :=
  if is_token_expired st now then (authenticate now authHeader, true) else (st, false)

/-- Observable effect of one data-fetching client call. -/
structure ApiCall where
  state : ClientState
  didAuth : Bool
  result : Json

/-- `AltoroAPI.accounts` on a successful response: ensure a valid token,
then return `response.get("Accounts", [])`. -/
def accounts (st : ClientState) (now : ℚ) (authHeader : String) (resp : Json) : ApiCall :=
  let ensured := ensure_valid_token st now authHeader
  { state := ensured.1, didAuth := ensured.2,
    result := match resp with
      | .obj fs => dictGetD fs "Accounts" (.arr [])
      | _ => .arr [] }

/-- `AltoroAPI.get_account_details` on a successful response: ensure a
valid token, then return the body unchanged. -/
def get_account_details (st : ClientState) (now : ℚ) (authHeader : String)
    (resp : Json) : ApiCall :=
  let ensured := ensure_valid_token st now authHeader
  { state := ensured.1, didAuth := ensured.2, result := resp }

/-- Python truthiness of an optional string argument (`if start and end`). -/
def strOptTruthy : Option String → Bool
  | none => false
  | some s => !(decide (s = ""))

/-- Observable effect of one `transactions` call (also records which wire
call was selected by the date arguments). -/
structure TransactionsCall where
  state : ClientState
  didAuth : Bool
  usedDateRange : Bool
  result : Json

/-- `AltoroAPI.transactions` on a successful response: ensure a valid
token, select the date-range POST iff both dates are truthy, and unwrap
the transaction array. -/
def transactions (st : ClientState) (now : ℚ) (authHeader : String)
    (startDate endDate : Option String) (resp : Json) : TransactionsCall :=
  let ensured := ensure_valid_token st now authHeader
  { state := ensured.1, didAuth := ensured.2,
    usedDateRange := strOptTruthy startDate && strOptTruthy endDate,
    result := extract_transactions resp }

/-! ### Positional-access lemmas for the DataFrame model -/

lemma colIdx_eq_none_iff (cols : List String) (c : String) :
    colIdx cols c = none ↔ c ∉ cols := by
  induction cols with
  | nil => simp [colIdx]
  | cons c0 rest ih =>
    by_cases h : c0 = c
    · simp [colIdx, h]
    · simp only [colIdx, if_neg h, Option.map_eq_none', ih, List.mem_cons]
      constructor
      · rintro hn (rfl | hmem)
        · exact h rfl
        · exact hn hmem
      · intro hn hmem
        exact hn (Or.inr hmem)

lemma colIdx_spec (cols : List String) (c : String) (j : ℕ)
    (h : colIdx cols c = some j) : j < cols.length ∧ cols.getD j "" = c := by
  induction cols generalizing j with
  | nil => simp [colIdx] at h
  | cons c0 rest ih =>
    by_cases h0 : c0 = c
    · simp [colIdx, h0] at h
      subst h
      exact ⟨Nat.succ_pos _, h0⟩
    · simp only [colIdx, if_neg h0, Option.map_eq_some'] at h
      obtain ⟨j', hj', rfl⟩ := h
      obtain ⟨hlt, heq⟩ := ih j' hj'
      exact ⟨by simpa using Nat.succ_lt_succ hlt, by simpa using heq⟩

lemma colIdx_append_some (cols : List String) (c : String) (j : ℕ) (l₂ : List String)
    (h : colIdx cols c = some j) : colIdx (cols ++ l₂) c = some j := by
  induction cols generalizing j with
  | nil => simp [colIdx] at h
  | cons c0 rest ih =>
    by_cases h0 : c0 = c
    · simp [colIdx, h0] at h ⊢
      omega
    · simp only [colIdx, if_neg h0, Option.map_eq_some'] at h ⊢
      obtain ⟨j', hj', rfl⟩ := h
      exact ⟨j', ih j' hj', rfl⟩

lemma colIdx_append_self (cols : List String) (name : String) (h : name ∉ cols) :
    colIdx (cols ++ [name]) name = some cols.length := by
  induction cols with
  | nil => simp [colIdx]
  | cons c0 rest ih =>
    simp only [List.mem_cons, not_or] at h
    have h0 : c0 ≠ name := Ne.symm h.1
    simp [colIdx, h0, ih h.2]

lemma colIdx_append_other (cols : List String) (name c : String)
    (hc : c ∉ cols) (hne : c ≠ name) : colIdx (cols ++ [name]) c = none := by
  induction cols with
  | nil => simp [colIdx, Ne.symm hne]
  | cons c0 rest ih =>
    simp only [List.mem_cons, not_or] at hc
    have h0 : c0 ≠ c := Ne.symm hc.1
    simp [colIdx, h0, ih hc.2]

lemma getD_zipWith' {α β γ : Type} (f : α → β → γ) (a : List α) (b : List β) (i : ℕ)
    (ha : i < a.length) (hb : i < b.length) (da : α) (db : β) (dc : γ) :
    (List.zipWith f a b).getD i dc = f (a.getD i da) (b.getD i db) := by
  have hz : i < (List.zipWith f a b).length := by
    rw [List.length_zipWith]; omega
  rw [List.getD_eq_getElem _ _ hz, List.getD_eq_getElem _ _ ha,
    List.getD_eq_getElem _ _ hb, List.getElem_zipWith]

lemma getD_map' {α β : Type} (f : α → β) (l : List α) (i : ℕ) (h : i < l.length)
    (da : α) (db : β) : (l.map f).getD i db = f (l.getD i da) := by
  have hm : i < (l.map f).length := by simpa using h
  rw [List.getD_eq_getElem _ _ hm, List.getD_eq_getElem _ _ h, List.getElem_map]

lemma setCol_cols (df : Df) (name : String) (vals : List Val) :
    (df.setCol name vals).cols =
      if name ∈ df.cols then df.cols else df.cols ++ [name] := by
  unfold Df.setCol
  split <;> simp_all

lemma setCol_map_rows_length (df : Df) (name : String) (f : List Val → Val) :
    (df.setCol name (df.rows.map f)).rows.length = df.rows.length := by
  unfold Df.setCol
  split <;> simp [List.length_zipWith]

lemma setCol_map_row (df : Df) (name : String) (f : List Val → Val) (i : ℕ)
    (hi : i < df.rows.length) :
    (df.setCol name (df.rows.map f)).rows.getD i [] =
      if name ∈ df.cols then
        setRow df.cols name (f (df.rows.getD i [])) (df.rows.getD i [])
      else df.rows.getD i [] ++ [f (df.rows.getD i [])] := by
  unfold Df.setCol
  by_cases hmem : name ∈ df.cols <;>
    simp only [hmem, if_pos, if_neg, not_false_iff, if_true, if_false] <;>
    rw [getD_zipWith' _ _ _ _ hi (by simpa using hi) [] Val.null []] <;>
    rw [getD_map' _ _ _ hi []]

lemma rowCell_setRow_self (cols : List String) (row : List Val) (name : String) (v : Val)
    (hlen : row.length = cols.length) (hmem : name ∈ cols) :
    rowCell cols (setRow cols name v row) name = v := by
  have hne : colIdx cols name ≠ none := fun hn =>
    ((colIdx_eq_none_iff cols name).1 hn) hmem
  cases h' : colIdx cols name with
  | none => exact absurd h' hne
  | some j =>
    obtain ⟨hj, hcj⟩ := colIdx_spec cols name j h'
    have hjr : j < row.length := by omega
    simp only [rowCell, setRow, h']
    rw [getD_zipWith' (fun c x => if c = name then v else x) cols row j hj hjr
      "" Val.null Val.null, hcj]
    simp

lemma rowCell_setRow_other (cols : List String) (row : List Val) (name : String) (v : Val)
    (c : String) (hlen : row.length = cols.length) (hc : c ≠ name) :
    rowCell cols (setRow cols name v row) c = rowCell cols row c := by
  cases h' : colIdx cols c with
  | none => simp only [rowCell, h']
  | some j =>
    obtain ⟨hj, hcj⟩ := colIdx_spec cols c j h'
    have hjr : j < row.length := by omega
    simp only [rowCell, setRow, h']
    rw [getD_zipWith' (fun c x => if c = name then v else x) cols row j hj hjr
      "" Val.null Val.null, hcj]
    simp [hc]

lemma rowCell_append_new (cols : List String) (row : List Val) (name : String) (v : Val)
    (hlen : row.length = cols.length) (hmem : name ∉ cols) :
    rowCell (cols ++ [name]) (row ++ [v]) name = v := by
  simp only [rowCell, colIdx_append_self cols name hmem]
  rw [List.getD_append_right row [v] Val.null cols.length (by omega)]
  simp [hlen]

lemma rowCell_append_other (cols : List String) (row : List Val) (name : String) (v : Val)
    (c : String) (hc : c ≠ name) (hlen : row.length = cols.length) :
    rowCell (cols ++ [name]) (row ++ [v]) c = rowCell cols row c := by
  cases h' : colIdx cols c with
  | none =>
    simp only [rowCell, h',
      colIdx_append_other cols name c ((colIdx_eq_none_iff _ _).1 h') hc]
  | some j =>
    obtain ⟨hj, _⟩ := colIdx_spec cols c j h'
    simp only [rowCell, h', colIdx_append_some cols c j [name] h']
    rw [List.getD_append row [v] Val.null j (by omega)]

lemma setCol_map_cell_self (df : Df) (name : String) (f : List Val → Val)
    (hwf : df.WF) (i : ℕ) (hi : i < df.rows.length) :
    rowCell (df.setCol name (df.rows.map f)).cols
      ((df.setCol name (df.rows.map f)).rows.getD i []) name =
      f (df.rows.getD i []) := by
  have hrow : df.rows.getD i [] ∈ df.rows := by
    rw [List.getD_eq_getElem _ _ hi]; exact List.getElem_mem hi
  have hlen := hwf _ hrow
  rw [setCol_cols, setCol_map_row df name f i hi]
  by_cases hmem : name ∈ df.cols
  · simp only [hmem, if_true]
    exact rowCell_setRow_self df.cols _ name _ hlen hmem
  · simp only [hmem, if_false]
    exact rowCell_append_new df.cols _ name _ hlen hmem

lemma setCol_map_cell_other (df : Df) (name : String) (f : List Val → Val)
    (hwf : df.WF) (c : String) (hc : c ≠ name) (i : ℕ) (hi : i < df.rows.length) :
    rowCell (df.setCol name (df.rows.map f)).cols
      ((df.setCol name (df.rows.map f)).rows.getD i []) c =
      rowCell df.cols (df.rows.getD i []) c := by
  have hrow : df.rows.getD i [] ∈ df.rows := by
    rw [List.getD_eq_getElem _ _ hi]; exact List.getElem_mem hi
  have hlen := hwf _ hrow
  rw [setCol_cols, setCol_map_row df name f i hi]
  by_cases hmem : name ∈ df.cols
  · simp only [hmem, if_true]
    exact rowCell_setRow_other df.cols _ name _ c hlen hc
  · simp only [hmem, if_false]
    exact rowCell_append_other df.cols _ name _ c hc hlen

lemma setCol_map_WF (df : Df) (name : String) (f : List Val → Val) (hwf : df.WF) :
    (df.setCol name (df.rows.map f)).WF := by
  intro r hr
  rw [List.mem_iff_getElem] at hr
  obtain ⟨i, hi, rfl⟩ := hr
  have hi' : i < df.rows.length := by
    rw [setCol_map_rows_length] at hi; exact hi
  rw [← List.getD_eq_getElem _ [] hi, setCol_map_row df name f i hi', setCol_cols]
  have hrow : df.rows.getD i [] ∈ df.rows := by
    rw [List.getD_eq_getElem _ _ hi']; exact List.getElem_mem hi'
  have hlen : (df.rows.getD i []).length = df.cols.length := hwf _ hrow
  by_cases hmem : name ∈ df.cols
  · simp only [hmem, if_true, setRow, List.length_zipWith]
    omega
  · simp only [hmem, if_false, List.length_append, List.length_cons, List.length_nil]
    omega

/-! ### Claim C1 -/

/-- A cell that is null or numeric (the variance inputs; `abs` of any
other cell raises in the source). -/
def isNumOrNull : Val → Bool
  | .str _ => false
  | _ => true

/-- **C1.** For every reconciliation row produced by `add_match_status` on
a variance column computed by `calculate_variance`: the status is
`"Match"` iff the variance cell is non-null and its absolute value is
strictly below the tolerance; it is the missing-data label `"Data
Missing"` iff the variance cell is null, which happens exactly when either
source-side cell is missing; otherwise it is `"Variance"`. -/
theorem c1_match_status_classification
    (df : Df) (col1 col2 result_col status_col : String) (tolerance : ℚ) (i : ℕ)
    (hwf : df.WF) (hi : i < df.rows.length)
    (ha : isNumOrNull (rowCell df.cols (df.rows.getD i []) col1) = true)
    (hb : isNumOrNull (rowCell df.cols (df.rows.getD i []) col2) = true) :
    let df1 := calculate_variance df col1 col2 result_col
    let df2 := add_match_status df1 result_col status_col tolerance
      "Match" "Variance" "Data Missing"
    let v := rowCell df1.cols (df1.rows.getD i []) result_col
    let status := rowCell df2.cols (df2.rows.getD i []) status_col
    (status = .str "Match" ↔ ∃ q : ℚ, v = .num q ∧ |q| < tolerance) ∧
    (status = .str "Data Missing" ↔ v = .null) ∧
    (v = .null ↔ rowCell df.cols (df.rows.getD i []) col1 = .null ∨
      rowCell df.cols (df.rows.getD i []) col2 = .null) ∧
    (status = .str "Variance" ↔ ∃ q : ℚ, v = .num q ∧ ¬(|q| < tolerance)) := by
  intro df1 df2 v status
  have hwf1 : df1.WF := setCol_map_WF df result_col _ hwf
  have hi1 : i < df1.rows.length := by
    show i < (df.setCol result_col _).rows.length
    rw [setCol_map_rows_length]; exact hi
  have hv : v = varianceCell (rowCell df.cols (df.rows.getD i []) col1)
      (rowCell df.cols (df.rows.getD i []) col2) :=
    setCol_map_cell_self df result_col _ hwf i hi
  have hst : status = .str (determine_status tolerance "Match" "Variance" "Data Missing" v) :=
    setCol_map_cell_self df1 status_col _ hwf1 i hi1
  rw [hst, hv]
  cases h1 : rowCell df.cols (df.rows.getD i []) col1 with
  | str s => rw [h1] at ha; simp [isNumOrNull] at ha
  | null =>
    simp [varianceCell, determine_status, notna]
  | num x =>
    cases h2 : rowCell df.cols (df.rows.getD i []) col2 with
    | str s => rw [h2] at hb; simp [isNumOrNull] at hb
    | null =>
      simp [varianceCell, determine_status, notna]
    | num y =>
      by_cases htol : |x - y| < tolerance
      · simp [varianceCell, determine_status, notna, valSub, htol]
      · simp [varianceCell, determine_status, notna, valSub, htol]
        exact not_lt.mp htol

/-- Witness for C1 at a concrete frame: API balance 100 and web balance
100 match under the default tolerance. -/
theorem c1_witness :
    (Df.WF ⟨["balance", "balance_web"], [[.num 100, .num 100]]⟩ ∧
      (0 : ℕ) < 1 ∧
      isNumOrNull (rowCell ["balance", "balance_web"] [Val.num 100, Val.num 100]
        "balance") = true) ∧
    (let df1 := calculate_variance ⟨["balance", "balance_web"], [[.num 100, .num 100]]⟩
        "balance" "balance_web" "balance_variance"
    let df2 := add_match_status df1 "balance_variance" "match_status" VARIANCE_TOLERANCE
      "Match" "Variance" "Data Missing"
    let v := rowCell df1.cols (df1.rows.getD 0 []) "balance_variance"
    let status := rowCell df2.cols (df2.rows.getD 0 []) "match_status"
    (status = .str "Match" ↔ ∃ q : ℚ, v = .num q ∧ |q| < VARIANCE_TOLERANCE) ∧
    (status = .str "Data Missing" ↔ v = .null) ∧
    (v = .null ↔ rowCell ["balance", "balance_web"] [Val.num 100, Val.num 100]
        "balance" = .null ∨
      rowCell ["balance", "balance_web"] [Val.num 100, Val.num 100]
        "balance_web" = .null) ∧
    (status = .str "Variance" ↔ ∃ q : ℚ, v = .num q ∧ ¬(|q| < VARIANCE_TOLERANCE))) :=
  ⟨⟨by decide, by decide, by decide⟩,
    c1_match_status_classification ⟨["balance", "balance_web"], [[.num 100, .num 100]]⟩
      "balance" "balance_web" "balance_variance" "match_status" VARIANCE_TOLERANCE 0
      (by decide) (by decide) (by decide) (by decide)⟩

/-! ### Claim C8 -/

/-- **C8.** The column normalizer treats each column independently
(renamed columns are the per-column `normalizeName`, row data untouched);
a column matching no rule is unchanged; the first rule whose keywords all
occur in the lowercased name wins; and the rule `(["account","id"],
"account_id")` matches the header `"Account ID/Number"` but not
`"Account Name"`. -/
theorem c8_column_normalizer (df : Df) (rules : List (List String × String)) :
    ((normalize_column_names df rules).rows = df.rows ∧
     (normalize_column_names df rules).cols = df.cols.map (normalizeName rules)) ∧
    (∀ col : String,
      (∀ rule ∈ rules, ¬(rule.1.all (fun k => strHas (lowerStr col) k) = true)) →
      normalizeName rules col = col) ∧
    (∀ (col : String) (pre post : List (List String × String))
        (rule : List String × String),
      rules = pre ++ rule :: post →
      rule.1.all (fun k => strHas (lowerStr col) k) = true →
      (∀ r ∈ pre, ¬(r.1.all (fun k => strHas (lowerStr col) k) = true)) →
      normalizeName rules col = rule.2) ∧
    ((["account", "id"] : List String).all
        (fun k => strHas (lowerStr "Account ID/Number") k) = true ∧
     (["account", "id"] : List String).all
        (fun k => strHas (lowerStr "Account Name") k) = false ∧
     normalizeName [(["account", "id"], "account_id")] "Account ID/Number" = "account_id" ∧
     normalizeName [(["account", "id"], "account_id")] "Account Name" = "Account Name") := by
  refine ⟨⟨rfl, rfl⟩, ?_, ?_, by decide, by decide, by decide, by decide⟩
  · intro col h
    unfold normalizeName
    have hn : rules.find? (fun rule => rule.1.all (fun k => strHas (lowerStr col) k)) = none :=
      List.find?_eq_none.mpr (by simpa using h)
    rw [hn]
  · intro col pre post rule hsplit hmatch hpre
    unfold normalizeName
    subst hsplit
    rw [List.find?_append]
    have hn : pre.find? (fun rule => rule.1.all (fun k => strHas (lowerStr col) k)) = none :=
      List.find?_eq_none.mpr (by simpa using hpre)
    rw [hn, Option.none_or]
    simp [List.find?, hmatch]

/-- Witness for C8: concrete normalizations through the theorem's
unmatched-column and first-match clauses. -/
theorem c8_witness :
    normalizeName fuzzy_rules "Total Balance" = "Total Balance" ∧
    normalizeName fuzzy_rules "Account ID/Number" = "account_id" := by
  constructor
  · exact (c8_column_normalizer ⟨[], []⟩ fuzzy_rules).2.1 "Total Balance" (by decide)
  · exact (c8_column_normalizer ⟨[], []⟩ fuzzy_rules).2.2.1 "Account ID/Number" []
      [(["account", "number"], "account_id"), (["transaction", "id"], "transaction_id")]
      (["account", "id"], "account_id") rfl (by decide) (by decide)

/-! ### Claim C10 -/

/-- **C10 (amended).** On a well-formed frame, when the result/status
column name is not already a column, `calculate_variance` and
`add_match_status` append exactly that one column: the original columns
are preserved in place with unchanged cell values and unchanged row count
(the source also copies its input, so the input object is never mutated —
immediate here since the model is functional).  When the name collides
with an existing column, that column is overwritten instead (see the
counterexample). -/
theorem c10_frame_effect (df : Df) (col1 col2 result_col : String)
    (variance_col status_col : String) (tolerance : ℚ)
    (match_label variance_label missing_label : String)
    (hwf : df.WF) (hr : result_col ∉ df.cols) (hs : status_col ∉ df.cols) :
    ((calculate_variance df col1 col2 result_col).cols = df.cols ++ [result_col] ∧
     (calculate_variance df col1 col2 result_col).rows.length = df.rows.length ∧
     ∀ c ∈ df.cols, ∀ i, i < df.rows.length →
       rowCell (calculate_variance df col1 col2 result_col).cols
         ((calculate_variance df col1 col2 result_col).rows.getD i []) c =
       rowCell df.cols (df.rows.getD i []) c) ∧
    ((add_match_status df variance_col status_col tolerance
        match_label variance_label missing_label).cols = df.cols ++ [status_col] ∧
     (add_match_status df variance_col status_col tolerance
        match_label variance_label missing_label).rows.length = df.rows.length ∧
     ∀ c ∈ df.cols, ∀ i, i < df.rows.length →
       rowCell (add_match_status df variance_col status_col tolerance
           match_label variance_label missing_label).cols
         ((add_match_status df variance_col status_col tolerance
           match_label variance_label missing_label).rows.getD i []) c =
       rowCell df.cols (df.rows.getD i []) c) := by
  refine ⟨⟨?_, ?_, ?_⟩, ?_, ?_, ?_⟩
  · rw [show (calculate_variance df col1 col2 result_col).cols =
      (df.setCol result_col _).cols from rfl, setCol_cols]
    simp [hr]
  · exact setCol_map_rows_length df result_col _
  · intro c hc i hi
    exact setCol_map_cell_other df result_col _ hwf c (fun h => hr (h ▸ hc)) i hi
  · rw [show (add_match_status df variance_col status_col tolerance
      match_label variance_label missing_label).cols =
      (df.setCol status_col _).cols from rfl, setCol_cols]
    simp [hs]
  · exact setCol_map_rows_length df status_col _
  · intro c hc i hi
    exact setCol_map_cell_other df status_col _ hwf c (fun h => hs (h ▸ hc)) i hi

/-- C10: the claim as frozen is false when the result column name already
exists: `calculate_variance` overwrites the pre-existing `variance` column
(99 becomes 1 − 5 = −4), so not every pre-existing column keeps its
values and nothing is added. -/
theorem c10_counterexample :
    rowCell (["a", "b", "variance"] : List String)
      [Val.num 1, Val.num 5, Val.num 99] "variance" = .num 99 ∧
    (calculate_variance ⟨["a", "b", "variance"], [[.num 1, .num 5, .num 99]]⟩
      "a" "b" "variance").cols = ["a", "b", "variance"] ∧
    rowCell (calculate_variance ⟨["a", "b", "variance"], [[.num 1, .num 5, .num 99]]⟩
        "a" "b" "variance").cols
      ((calculate_variance ⟨["a", "b", "variance"], [[.num 1, .num 5, .num 99]]⟩
        "a" "b" "variance").rows.getD 0 []) "variance" = .num (-4) ∧
    ¬(rowCell (calculate_variance ⟨["a", "b", "variance"], [[.num 1, .num 5, .num 99]]⟩
        "a" "b" "variance").cols
      ((calculate_variance ⟨["a", "b", "variance"], [[.num 1, .num 5, .num 99]]⟩
        "a" "b" "variance").rows.getD 0 []) "variance" = .num 99) := by
  have hcell : rowCell (calculate_variance ⟨["a", "b", "variance"],
      [[.num 1, .num 5, .num 99]]⟩ "a" "b" "variance").cols
      ((calculate_variance ⟨["a", "b", "variance"], [[.num 1, .num 5, .num 99]]⟩
        "a" "b" "variance").rows.getD 0 []) "variance" = Val.num (1 - 5) := rfl
  refine ⟨rfl, rfl, ?_, ?_⟩
  · rw [hcell]
    norm_num
  · rw [hcell]
    simp only [Val.num.injEq]
    norm_num

/-- Witness for C10 on a fresh result column. -/
theorem c10_witness :
    (Df.WF ⟨["a", "b"], [[.num 7, .num 2]]⟩ ∧
      "v" ∉ (["a", "b"] : List String) ∧ "s" ∉ (["a", "b"] : List String)) ∧
    (calculate_variance ⟨["a", "b"], [[.num 7, .num 2]]⟩ "a" "b" "v").cols =
      ["a", "b"] ++ ["v"] :=
  ⟨⟨by decide, by decide, by decide⟩,
    ((c10_frame_effect ⟨["a", "b"], [[.num 7, .num 2]]⟩ "a" "b" "v" "v" "s" 0 "M" "V" "D"
      (by decide) (by decide) (by decide)).1).1⟩

/-! ### Claim C3 -/

/-- C3 fails as frozen: a 403 response is classified by the retry engine's
catch-all status branch, raising the generic `APIError`, not
`AuthenticationError` (only 401 gets the auth-specific error there). -/
theorem c3_counterexample :
    (apiRetryRun 3 (fun _ => .statusErr 403)).result = .apiError 403 0 ∧
    (apiRetryRun 3 (fun _ => .statusErr 403)).result ≠ .authError 403 0 ∧
    (apiRetryRun 3 (fun _ => .statusErr 403)).calls = 1 ∧
    (apiRetryRun 3 (fun _ => .statusErr 403)).sleeps = 0 := by
  decide

/-- **C3 (amended).** For every status in \{400, 401, 403, 501\} the retry
engine performs zero retries — the wrapped operation runs exactly once and
no sleep occurs — and raises `AuthenticationError` for 401 and the generic
`APIError` for 400, 403 and 501. -/
theorem c3_amended (maxRetries : ℕ) (out : ℕ → HttpOutcome) (code : ℕ)
    (hcode : code = 400 ∨ code = 401 ∨ code = 403 ∨ code = 501)
    (h0 : out 0 = .statusErr code) :
    apiRetryRun maxRetries out =
      ⟨if code = 401 then .authError 401 0 else .apiError code 0, 1, 0⟩ := by
  unfold apiRetryRun
  rcases hcode with rfl | rfl | rfl | rfl <;> simp [apiRetryAux, h0]

/-- Witness for C3 (amended) at status 400 with three allowed retries. -/
theorem c3_witness :
    ((fun _ : ℕ => HttpOutcome.statusErr 400) 0 = .statusErr 400) ∧
    apiRetryRun 3 (fun _ => .statusErr 400) = ⟨.apiError 400 0, 1, 0⟩ := by
  refine ⟨rfl, ?_⟩
  have := c3_amended 3 (fun _ => .statusErr 400) 400 (Or.inl rfl) rfl
  simpa using this

/-! ### Claim C4 -/

lemma apiRetryAux_all500 (maxRetries : ℕ) (out : ℕ → HttpOutcome)
    (h : ∀ n, out n = .statusErr 500) :
    ∀ fuel attempt calls sleeps, attempt + fuel = maxRetries + 1 → 1 ≤ fuel →
      apiRetryAux maxRetries out fuel attempt calls sleeps =
        ⟨.maxRetriesExceeded (maxRetries + 1) maxRetries, calls + fuel, sleeps + (fuel - 1)⟩ := by
  intro fuel
  induction fuel with
  | zero => intro attempt calls sleeps _ h1; omega
  | succ f ih =>
    intro attempt calls sleeps hinv _
    by_cases hlast : attempt + 1 > maxRetries
    · have hf : f = 0 := by omega
      have ha : attempt = maxRetries := by omega
      subst hf
      simp [apiRetryAux, h, hlast] <;> omega
    · have hf : 1 ≤ f := by omega
      have hrec := ih (attempt + 1) (calls + 1) (sleeps + 1) (by omega) hf
      simp [apiRetryAux, h attempt, hlast, hrec] <;> omega

/-- **C4.** If every invocation fails with HTTP 500, the retry engine with
`maxRetries` sleeps exactly `maxRetries` times and raises
`MaxRetriesExceeded` with `attempts = maxRetries + 1`, whose cause is the
error of the last (index `maxRetries`) invocation — itself a 500 error. -/
theorem c4_500_exhaustion (maxRetries : ℕ) (out : ℕ → HttpOutcome)
    (h : ∀ n, out n = .statusErr 500) :
    apiRetryRun maxRetries out =
      ⟨.maxRetriesExceeded (maxRetries + 1) maxRetries, maxRetries + 1, maxRetries⟩ ∧
    out maxRetries = .statusErr 500 := by
  refine ⟨?_, h maxRetries⟩
  unfold apiRetryRun
  have := apiRetryAux_all500 maxRetries out h (maxRetries + 1) 0 0 0 (by omega) (by omega)
  simpa using this

/-- Witness for C4 with `maxRetries = 2`. -/
theorem c4_witness :
    ((fun _ : ℕ => HttpOutcome.statusErr 500) 1 = .statusErr 500) ∧
    apiRetryRun 2 (fun _ => .statusErr 500) = ⟨.maxRetriesExceeded 3 2, 3, 2⟩ :=
  ⟨rfl, (c4_500_exhaustion 2 (fun _ => .statusErr 500) (fun _ => rfl)).1⟩

/-! ### Claim C5 -/

/-- The HTTP outcomes the engine retries (500, connect, timeout, generic
request errors). -/
def retryableOutcome : HttpOutcome → Bool
  | .statusErr code => decide (code = 500)
  | .connectErr => true
  | .timeoutErr => true
  | .requestErr => true
  | _ => false

/-- A session-wrapped invocation failing with a session-classified
message. -/
def isSessionFailure : SessionOutcome → Bool
  | .success => false
  | .err msg => isSessionError msg

/-- C5 fails as frozen: the session variant's loop is
`for attempt in range(1, max_retries + 1)`, so with `maxRetries = 2` an
always-failing session operation is invoked 2 times, not 3. -/
theorem c5_counterexample :
    (sessionRetryRun 2 ⟨true, true, fun _ => some true, fun _ => true⟩
      (fun _ => .err "session expired")).calls = 2 ∧
    (sessionRetryRun 2 ⟨true, true, fun _ => some true, fun _ => true⟩
      (fun _ => .err "session expired")).calls ≠ 2 + 1 := by
  decide

lemma apiRetryAux_calls (maxRetries : ℕ) (out : ℕ → HttpOutcome)
    (h : ∀ n, retryableOutcome (out n) = true) :
    ∀ fuel attempt calls sleeps, attempt + fuel = maxRetries + 1 →
      (apiRetryAux maxRetries out fuel attempt calls sleeps).calls = calls + fuel := by
  intro fuel
  induction fuel with
  | zero => intro attempt calls sleeps _; simp [apiRetryAux]
  | succ f ih =>
    intro attempt calls sleeps hinv
    have hr := h attempt
    cases ho : out attempt with
    | success => rw [ho] at hr; simp [retryableOutcome] at hr
    | otherErr => rw [ho] at hr; simp [retryableOutcome] at hr
    | statusErr code =>
      rw [ho] at hr
      have hc : code = 500 := by simpa [retryableOutcome] using hr
      subst hc
      by_cases hlast : attempt + 1 > maxRetries
      · have hf : f = 0 := by omega
        subst hf
        simp [apiRetryAux, ho, hlast] <;> omega
      · have hrec := ih (attempt + 1) (calls + 1) (sleeps + 1) (by omega)
        simp [apiRetryAux, ho, hlast, hrec] <;> omega
    | connectErr =>
      by_cases hlast : attempt + 1 > maxRetries
      · have hf : f = 0 := by omega
        subst hf
        simp [apiRetryAux, ho, hlast] <;> omega
      · have hrec := ih (attempt + 1) (calls + 1) (sleeps + 1) (by omega)
        simp [apiRetryAux, ho, hlast, hrec] <;> omega
    | timeoutErr =>
      by_cases hlast : attempt + 1 > maxRetries
      · have hf : f = 0 := by omega
        subst hf
        simp [apiRetryAux, ho, hlast] <;> omega
      · have hrec := ih (attempt + 1) (calls + 1) (sleeps + 1) (by omega)
        simp [apiRetryAux, ho, hlast, hrec] <;> omega
    | requestErr =>
      by_cases hlast : attempt + 1 > maxRetries
      · have hf : f = 0 := by omega
        subst hf
        simp [apiRetryAux, ho, hlast] <;> omega
      · have hrec := ih (attempt + 1) (calls + 1) (sleeps + 1) (by omega)
        simp [apiRetryAux, ho, hlast, hrec] <;> omega

lemma sessionRetryAux_calls (maxRetries : ℕ) (env : SessionEnv)
    (out : ℕ → SessionOutcome) (h : ∀ n, isSessionFailure (out n) = true) :
    ∀ fuel attempt calls lastIdx, attempt + fuel = maxRetries + 1 →
      (sessionRetryAux maxRetries env out fuel attempt calls lastIdx).calls =
        calls + fuel := by
  intro fuel
  induction fuel with
  | zero =>
    intro attempt calls lastIdx _
    cases lastIdx <;> simp [sessionRetryAux]
  | succ f ih =>
    intro attempt calls lastIdx hinv
    have hr := h attempt
    cases ho : out attempt with
    | success => rw [ho] at hr; simp [isSessionFailure] at hr
    | err msg =>
      rw [ho] at hr
      have hcls : isSessionError msg = true := by simpa [isSessionFailure] using hr
      have hrec : ∀ li : Option ℕ,
          (sessionRetryAux maxRetries env out f (attempt + 1) (calls + 1) li).calls =
            calls + 1 + f := fun li => ih (attempt + 1) (calls + 1) li (by omega)
      cases hlp : env.hasLoginPage with
      | false =>
        by_cases hl : attempt < maxRetries
        · simp [sessionRetryAux, ho, hcls, hlp, hl, hrec] <;> omega
        · have hf : f = 0 := by omega
          subst hf
          simp [sessionRetryAux, ho, hcls, hlp, hl] <;> omega
      | true =>
        cases hlo : env.loggedOut attempt with
        | none =>
          by_cases hm : attempt = maxRetries
          · have hf : f = 0 := by omega
            simp [sessionRetryAux, ho, hcls, hlp, hlo, if_pos hm, hf] <;> omega
          · have hl : attempt < maxRetries := by omega
            simp [sessionRetryAux, ho, hcls, hlp, hlo, hm, hl, hrec] <;> omega
        | some b =>
          cases b with
          | false =>
            by_cases hl : attempt < maxRetries
            · simp [sessionRetryAux, ho, hcls, hlp, hlo, hl, hrec] <;> omega
            · have hf : f = 0 := by omega
              subst hf
              simp [sessionRetryAux, ho, hcls, hlp, hlo, hl] <;> omega
          | true =>
            cases hcred : env.hasCredentials with
            | false =>
              by_cases hm : attempt = maxRetries
              · have hf : f = 0 := by omega
                simp [sessionRetryAux, ho, hcls, hlp, hlo, hcred, if_pos hm, hf] <;> omega
              · have hl : attempt < maxRetries := by omega
                simp [sessionRetryAux, ho, hcls, hlp, hlo, hcred, hm, hl, hrec] <;> omega
            | true =>
              cases hre : env.reauthOk attempt with
              | true =>
                simp [sessionRetryAux, ho, hcls, hlp, hlo, hcred, hre, hrec] <;> omega
              | false =>
                by_cases hm : attempt = maxRetries
                · have hf : f = 0 := by omega
                  simp [sessionRetryAux, ho, hcls, hlp, hlo, hcred, hre, if_pos hm, hf] <;>
                    omega
                · have hl : attempt < maxRetries := by omega
                  simp [sessionRetryAux, ho, hcls, hlp, hlo, hcred, hre, hm, hl, hrec] <;>
                    omega

/-- **C5 (amended).** With an operation failing on every invocation with a
retryable (HTTP) resp. session-classified (browser) error: the HTTP retry
engine's initial try is attempt 0 and is not counted against `maxRetries`,
so the operation is invoked `maxRetries + 1` times; the browser-session
engine instead starts at attempt 1 and counts it against `maxRetries`, so
the operation is invoked exactly `maxRetries` times before the terminal
error. -/
theorem c5_amended :
    (∀ (maxRetries : ℕ) (out : ℕ → HttpOutcome),
      (∀ n, retryableOutcome (out n) = true) →
      (apiRetryRun maxRetries out).calls = maxRetries + 1) ∧
    (∀ (maxRetries : ℕ) (env : SessionEnv) (out : ℕ → SessionOutcome),
      (∀ n, isSessionFailure (out n) = true) →
      (sessionRetryRun maxRetries env out).calls = maxRetries) := by
  constructor
  · intro maxRetries out h
    unfold apiRetryRun
    rw [apiRetryAux_calls maxRetries out h (maxRetries + 1) 0 0 0 (by omega)]
    omega
  · intro maxRetries env out h
    unfold sessionRetryRun
    rw [sessionRetryAux_calls maxRetries env out h maxRetries 1 0 none (by omega)]
    omega

/-- Witness for C5 (amended): 3 invocations for the HTTP engine and 2 for
the session engine at `maxRetries = 2`. -/
theorem c5_witness :
    (apiRetryRun 2 (fun _ => .connectErr)).calls = 3 ∧
    (sessionRetryRun 2 ⟨true, true, fun _ => some true, fun _ => true⟩
      (fun _ => .err "timeout")).calls = 2 :=
  ⟨c5_amended.1 2 (fun _ => .connectErr) (fun _ => rfl),
    c5_amended.2 2 ⟨true, true, fun _ => some true, fun _ => true⟩
      (fun _ => .err "timeout") (fun _ => rfl)⟩

/-! ### Claim C6 -/

/-- C6 fails as frozen: with the default factor 2 and cap 32, attempts 6
and 7 both have base backoff 32, and the jitter samples 3 (valid: at most
32/10) and 0 give waits 35 then 32 — not non-decreasing across jitter
outcomes. -/
theorem c6_counterexample :
    (0 : ℚ) ≤ 3 ∧ (3 : ℚ) ≤ backoffBase 6 2 32 * (1 / 10) ∧
    (0 : ℚ) ≤ 0 ∧ (0 : ℚ) ≤ backoffBase 7 2 32 * (1 / 10) ∧
    calculate_backoff 6 2 32 true 3 = 35 ∧
    calculate_backoff 7 2 32 true 0 = 32 ∧
    ¬(calculate_backoff 6 2 32 true 3 ≤ calculate_backoff 7 2 32 true 0) := by
  norm_num [calculate_backoff, backoffBase, min_def]

/-- **C6 (amended).** The computed wait equals
`min(backoffFactor^(attempt−1), maxBackoff)` plus, with jitter, the
sampled amount from `[0, 0.1 × that value]`; the un-jittered base is
monotonically non-decreasing in the attempt (for `backoffFactor ≥ 1`) up
to its cap `maxBackoff`; and for every jitter outcome in the sampled range
the wait never exceeds `maxBackoff × 1.1`.  (Monotonicity of the jittered
values across jitter outcomes fails at the cap; see the
counterexample.) -/
theorem c6_backoff (attempt : ℕ) (backoff_factor max_backoff sample : ℚ) (jitter : Bool)
    (hf : 1 ≤ backoff_factor) (hs0 : 0 ≤ sample)
    (hsb : sample ≤ backoffBase attempt backoff_factor max_backoff * (1 / 10)) :
    (calculate_backoff attempt backoff_factor max_backoff jitter sample =
      (if jitter then backoffBase attempt backoff_factor max_backoff + sample
       else backoffBase attempt backoff_factor max_backoff)) ∧
    (∀ m n : ℕ, m ≤ n →
      backoffBase m backoff_factor max_backoff ≤ backoffBase n backoff_factor max_backoff) ∧
    backoffBase attempt backoff_factor max_backoff ≤ max_backoff ∧
    calculate_backoff attempt backoff_factor max_backoff jitter sample ≤
      max_backoff * (11 / 10) := by
  have hbase_le : backoffBase attempt backoff_factor max_backoff ≤ max_backoff :=
    min_le_right _ _
  have hbase_nonneg : 0 ≤ backoffBase attempt backoff_factor max_backoff := by
    nlinarith
  have hform : calculate_backoff attempt backoff_factor max_backoff jitter sample =
      (if jitter then backoffBase attempt backoff_factor max_backoff + sample
       else backoffBase attempt backoff_factor max_backoff) := by
    cases jitter <;> simp [calculate_backoff, backoffBase]
  refine ⟨hform, ?_, hbase_le, ?_⟩
  · intro m n hmn
    unfold backoffBase
    exact min_le_min (pow_le_pow_right₀ hf (by omega)) le_rfl
  · have h10 : backoffBase attempt backoff_factor max_backoff * (1 / 10) ≤
        max_backoff * (1 / 10) := by
      apply mul_le_mul_of_nonneg_right hbase_le
      norm_num
    rw [hform]
    split
    · nlinarith
    · nlinarith

/-- Witness for C6 at attempt 1 with factor 2, cap 32, zero jitter
sample. -/
theorem c6_witness :
    ((1 : ℚ) ≤ 2 ∧ (0 : ℚ) ≤ 0 ∧ (0 : ℚ) ≤ backoffBase 1 2 32 * (1 / 10)) ∧
    calculate_backoff 1 2 32 true 0 ≤ 32 * (11 / 10) :=
  ⟨⟨by norm_num, le_refl 0, by norm_num [backoffBase, min_def]⟩,
    (c6_backoff 1 2 32 0 true (by norm_num) (by norm_num)
      (by norm_num [backoffBase, min_def])).2.2.2⟩

/-! ### Claim C7 -/

/-- C7 fails as frozen at the buffer boundary: a token expiring at 3600 is
still considered usable at `now = 3300` (time-to-expiry exactly 300), yet
`now < expiresAt − 300` does not hold there. -/
theorem c7_counterexample :
    is_token_expired ⟨some ⟨"tok", 3600⟩⟩ 3300 = false ∧
    ¬((3300 : ℚ) < 3600 - 300) := by
  constructor
  · norm_num [is_token_expired, TOKEN_REFRESH_BUFFER]
  · norm_num

/-- **C7 (amended).** A token is usable (not expired) exactly while
`now ≤ expiresAt − 300` (the source's check `expiresAt − now < 300` makes
the boundary instant itself still usable); every data-fetching client
operation (`accounts`, `get_account_details`, `transactions`) first runs
`_ensure_valid_token`, which re-authenticates exactly when the token is
absent or within the 300-second buffer and always leaves a token that is
valid now; and a token with expiry 3600 (created at time 0) is expired for
use at 3301 but valid at 3000. -/
theorem c7_token_lifecycle :
    (∀ (st : ClientState) (now : ℚ),
      is_token_expired st now = false ↔
        ∃ t, st.tok = some t ∧ now ≤ t.exp - TOKEN_REFRESH_BUFFER) ∧
    (∀ (st : ClientState) (now : ℚ) (authHeader : String),
      (ensure_valid_token st now authHeader).2 = true ↔
        st.tok = none ∨ ∃ t, st.tok = some t ∧ t.exp - now < TOKEN_REFRESH_BUFFER) ∧
    (∀ (st : ClientState) (now : ℚ) (authHeader : String),
      is_token_expired (ensure_valid_token st now authHeader).1 now = false) ∧
    (∀ (st : ClientState) (now : ℚ) (authHeader : String) (resp : Json),
      (accounts st now authHeader resp).state = (ensure_valid_token st now authHeader).1 ∧
      (accounts st now authHeader resp).didAuth =
        (ensure_valid_token st now authHeader).2) ∧
    (∀ (st : ClientState) (now : ℚ) (authHeader : String) (resp : Json),
      (get_account_details st now authHeader resp).state =
        (ensure_valid_token st now authHeader).1 ∧
      (get_account_details st now authHeader resp).didAuth =
        (ensure_valid_token st now authHeader).2) ∧
    (∀ (st : ClientState) (now : ℚ) (authHeader : String) (sd ed : Option String)
        (resp : Json),
      (transactions st now authHeader sd ed resp).state =
        (ensure_valid_token st now authHeader).1 ∧
      (transactions st now authHeader sd ed resp).didAuth =
        (ensure_valid_token st now authHeader).2) ∧
    (is_token_expired ⟨some ⟨"tok", 3600⟩⟩ 3301 = true ∧
     is_token_expired ⟨some ⟨"tok", 3600⟩⟩ 3000 = false) := by
  have husable : ∀ (st : ClientState) (now : ℚ),
      is_token_expired st now = false ↔
        ∃ t, st.tok = some t ∧ now ≤ t.exp - TOKEN_REFRESH_BUFFER := by
    intro st now
    cases ht : st.tok with
    | none => simp [is_token_expired, ht]
    | some t =>
      simp only [is_token_expired, ht, decide_eq_false_iff_not, not_lt, Option.some.injEq]
      constructor
      · intro hle
        exact ⟨t, rfl, by linarith⟩
      · rintro ⟨t', rfl, hle⟩
        linarith
  refine ⟨husable, ?_, ?_, fun st now ah resp => ⟨rfl, rfl⟩,
    fun st now ah resp => ⟨rfl, rfl⟩, fun st now ah sd ed resp => ⟨rfl, rfl⟩, ?_, ?_⟩
  · intro st now ah
    unfold ensure_valid_token
    cases hexp : is_token_expired st now with
    | true =>
      simp only [if_true, eq_self_iff_true, iff_true, true_iff]
      cases ht : st.tok with
      | none => exact Or.inl rfl
      | some t =>
        refine Or.inr ⟨t, rfl, ?_⟩
        simp only [is_token_expired, ht, decide_eq_true_eq] at hexp
        exact hexp
    | false =>
      simp only [Bool.false_eq_true, if_false, false_iff]
      rintro (hnone | ⟨t, ht, hlt⟩)
      · simp [is_token_expired, hnone] at hexp
      · simp only [is_token_expired, ht, decide_eq_false_iff_not] at hexp
        exact hexp hlt
  · intro st now ah
    unfold ensure_valid_token
    cases hexp : is_token_expired st now with
    | true =>
      have hfresh : is_token_expired (authenticate now ah) now = false := by
        simp only [is_token_expired, authenticate, decide_eq_false_iff_not, not_lt,
          TOKEN_REFRESH_BUFFER]
        linarith
      simpa using hfresh
    | false => simpa using hexp
  · norm_num [is_token_expired, TOKEN_REFRESH_BUFFER]
  · norm_num [is_token_expired, TOKEN_REFRESH_BUFFER]

/-- Witness for C7: the concrete freshness instances through the
theorem. -/
theorem c7_witness :
    is_token_expired ⟨some ⟨"tok", 3600⟩⟩ 3301 = true ∧
    is_token_expired ⟨some ⟨"tok", 3600⟩⟩ 3000 = false :=
  ⟨(c7_token_lifecycle).2.2.2.2.2.2.1, (c7_token_lifecycle).2.2.2.2.2.2.2⟩

/-! ### Claim C9 -/

/-- **C9.** The `transactions` call unwraps a dict response by probing
`transactions`, then `lastTenTransactions`, then `Transactions` in order
(a falsy value — absent key, None, or empty list — falls through to the
next), returning `[]` when none yields data; a bare array response is
returned unchanged. -/
theorem c9_transactions_unwrap :
    (∀ (st : ClientState) (now : ℚ) (ah : String) (sd ed : Option String)
        (fs : List (String × Json)),
      (jsonTruthy (dictGet fs "transactions") = true →
        (transactions st now ah sd ed (.obj fs)).result = dictGet fs "transactions") ∧
      (jsonTruthy (dictGet fs "transactions") = false →
        jsonTruthy (dictGet fs "lastTenTransactions") = true →
        (transactions st now ah sd ed (.obj fs)).result =
          dictGet fs "lastTenTransactions") ∧
      (jsonTruthy (dictGet fs "transactions") = false →
        jsonTruthy (dictGet fs "lastTenTransactions") = false →
        jsonTruthy (dictGet fs "Transactions") = true →
        (transactions st now ah sd ed (.obj fs)).result = dictGet fs "Transactions") ∧
      (jsonTruthy (dictGet fs "transactions") = false →
        jsonTruthy (dictGet fs "lastTenTransactions") = false →
        jsonTruthy (dictGet fs "Transactions") = false →
        (transactions st now ah sd ed (.obj fs)).result = .arr [])) ∧
    (∀ (st : ClientState) (now : ℚ) (ah : String) (sd ed : Option String)
        (es : List Json),
      (transactions st now ah sd ed (.arr es)).result = .arr es) := by
  constructor
  · intro st now ah sd ed fs
    refine ⟨?_, ?_, ?_, ?_⟩
    · intro h1
      simp [transactions, extract_transactions, pyOr, h1]
    · intro h1 h2
      simp [transactions, extract_transactions, pyOr, h1, h2]
    · intro h1 h2 h3
      simp [transactions, extract_transactions, pyOr, h1, h2, h3]
    · intro h1 h2 h3
      simp [transactions, extract_transactions, pyOr, h1, h2, h3]
  · intro st now ah sd ed es
    rfl

/-- Witness for C9: a wrapped and a bare-array response at concrete
inputs. -/
theorem c9_witness :
    jsonTruthy (dictGet [("transactions", Json.arr [Json.num 1])] "transactions") = true ∧
    (transactions ⟨none⟩ 0 "Bearer t" none none
      (.obj [("transactions", Json.arr [Json.num 1])])).result = Json.arr [Json.num 1] ∧
    (transactions ⟨none⟩ 0 "Bearer t" none none (.arr [Json.num 2])).result =
      Json.arr [Json.num 2] :=
  ⟨rfl,
    (c9_transactions_unwrap.1 ⟨none⟩ 0 "Bearer t" none none
      [("transactions", Json.arr [Json.num 1])]).1 rfl,
    c9_transactions_unwrap.2 ⟨none⟩ 0 "Bearer t" none none [Json.num 2]⟩

/-! ### Claim C2 -/

lemma apiSide_rows_length (df : Df) : (apiSide df).rows.length = df.rows.length := by
  unfold apiSide
  split
  · exact setCol_map_rows_length df "account_id" _
  · rfl

lemma webSide_rows_length (df : Df) : (webSide df).rows.length = df.rows.length := by
  unfold webSide
  dsimp only
  split
  · exact setCol_map_rows_length
      (normalize_column_names (renameCols display_to_programmatic df) fuzzy_rules)
      "account_id" _
  · rfl

/-- **C2.** Transaction reconciliation is total on degenerate input (side
emptiness is preserved by normalization, so the checks reflect the input
datasets): with exactly one side empty it skips the join and returns the
single-source summary of the non-empty side tagged with a `data_source`
marker naming the empty side; with both sides empty it returns the one-row
no-data diagnostic; and when the `account_id` join column is absent after
normalization it returns a one-row diagnostic naming the malformed side
and the missing column. -/
theorem c2_degenerate_reconciliation :
    (∀ df : Df, (apiSide df).rows.length = df.rows.length ∧
      (webSide df).rows.length = df.rows.length) ∧
    (∀ api_df web_df : Df, (apiSide api_df).rows = [] → (webSide web_df).rows ≠ [] →
      reconcile_transactions api_df web_df =
        assignDataSource (summarize_api_transactions (webSide web_df))
          "Web Only (API Empty)") ∧
    (∀ api_df web_df : Df, (apiSide api_df).rows = [] → (webSide web_df).rows = [] →
      reconcile_transactions api_df web_df = noDataDiagnostic) ∧
    (∀ api_df web_df : Df, (apiSide api_df).rows ≠ [] → (webSide web_df).rows = [] →
      reconcile_transactions api_df web_df =
        assignDataSource (summarize_api_transactions (apiSide api_df))
          "API Only (Web Empty)") ∧
    (∀ api_df web_df : Df, (apiSide api_df).rows ≠ [] → (webSide web_df).rows ≠ [] →
      "account_id" ∉ (apiSide api_df).cols →
      reconcile_transactions api_df web_df = apiMalformedDiagnostic) ∧
    (∀ api_df web_df : Df, (apiSide api_df).rows ≠ [] → (webSide web_df).rows ≠ [] →
      "account_id" ∈ (apiSide api_df).cols → "account_id" ∉ (webSide web_df).cols →
      reconcile_transactions api_df web_df = webMalformedDiagnostic) ∧
    (noDataDiagnostic.rows.length = 1 ∧ apiMalformedDiagnostic.rows.length = 1 ∧
     webMalformedDiagnostic.rows.length = 1) := by
  refine ⟨fun df => ⟨apiSide_rows_length df, webSide_rows_length df⟩,
    ?_, ?_, ?_, ?_, ?_, rfl, rfl, rfl⟩
  · intro api_df web_df h1 h2
    have e1 : (apiSide api_df).rows.isEmpty = true := by simp [h1]
    have e2 : (webSide web_df).rows.isEmpty = false := by
      rw [Bool.eq_false_iff]
      intro hx
      exact h2 (List.isEmpty_iff.mp hx)
    simp [reconcile_transactions, e1, e2]
  · intro api_df web_df h1 h2
    have e1 : (apiSide api_df).rows.isEmpty = true := by simp [h1]
    have e2 : (webSide web_df).rows.isEmpty = true := by simp [h2]
    simp [reconcile_transactions, e1, e2]
  · intro api_df web_df h1 h2
    have e1 : (apiSide api_df).rows.isEmpty = false := by
      rw [Bool.eq_false_iff]
      intro hx
      exact h1 (List.isEmpty_iff.mp hx)
    have e2 : (webSide web_df).rows.isEmpty = true := by simp [h2]
    simp [reconcile_transactions, e1, e2]
  · intro api_df web_df h1 h2 hm
    have e1 : (apiSide api_df).rows.isEmpty = false := by
      rw [Bool.eq_false_iff]
      intro hx
      exact h1 (List.isEmpty_iff.mp hx)
    have e2 : (webSide web_df).rows.isEmpty = false := by
      rw [Bool.eq_false_iff]
      intro hx
      exact h2 (List.isEmpty_iff.mp hx)
    simp [reconcile_transactions, e1, e2, hm]
  · intro api_df web_df h1 h2 hma hmw
    have e1 : (apiSide api_df).rows.isEmpty = false := by
      rw [Bool.eq_false_iff]
      intro hx
      exact h1 (List.isEmpty_iff.mp hx)
    have e2 : (webSide web_df).rows.isEmpty = false := by
      rw [Bool.eq_false_iff]
      intro hx
      exact h2 (List.isEmpty_iff.mp hx)
    simp [reconcile_transactions, e1, e2, hma, hmw]

/-- A one-row canonical API transactions frame (witness data). -/
def sampleTxns : Df :=
  ⟨["account_id", "debit", "credit", "transaction_id"],
   [[.str "800002", .num 10, .num 5, .str "t1"]]⟩

/-- An empty canonical transactions frame (witness data). -/
def sampleEmptyTxns : Df :=
  ⟨["account_id", "debit", "credit", "transaction_id"], []⟩

/-- A non-empty frame lacking the join column even after normalization
(witness data). -/
def sampleNoKeyTxns : Df := ⟨["foo"], [[.num 1]]⟩

/-- Witness for C2: all five degenerate branches at concrete frames. -/
theorem c2_witness :
    ((apiSide sampleEmptyTxns).rows = [] ∧ (webSide sampleTxns).rows ≠ [] ∧
      reconcile_transactions sampleEmptyTxns sampleTxns =
        assignDataSource (summarize_api_transactions (webSide sampleTxns))
          "Web Only (API Empty)") ∧
    reconcile_transactions sampleEmptyTxns sampleEmptyTxns = noDataDiagnostic ∧
    reconcile_transactions sampleTxns sampleEmptyTxns =
      assignDataSource (summarize_api_transactions (apiSide sampleTxns))
        "API Only (Web Empty)" ∧
    reconcile_transactions sampleNoKeyTxns sampleTxns = apiMalformedDiagnostic ∧
    reconcile_transactions sampleTxns sampleNoKeyTxns = webMalformedDiagnostic := by
  refine ⟨⟨by decide, by decide, ?_⟩, ?_, ?_, ?_, ?_⟩
  · exact c2_degenerate_reconciliation.2.1 sampleEmptyTxns sampleTxns
      (by decide) (by decide)
  · exact c2_degenerate_reconciliation.2.2.1 sampleEmptyTxns sampleEmptyTxns
      (by decide) (by decide)
  · exact c2_degenerate_reconciliation.2.2.2.1 sampleTxns sampleEmptyTxns
      (by decide) (by decide)
  · exact c2_degenerate_reconciliation.2.2.2.2.1 sampleNoKeyTxns sampleTxns
      (by decide) (by decide) (by decide)
  · exact c2_degenerate_reconciliation.2.2.2.2.2.1 sampleTxns sampleNoKeyTxns
      (by decide) (by decide) (by decide) (by decide)

end AltoroRPA
